import Mathlib

/-!
Shallow embedding of the PowerVS client (`src/powervs_client.py`) for checking
the repository's specification.  Python dictionaries returned by the remote
JSON API are modelled with explicit three-valued fields (`missing` / `null` /
present), Python exceptions are modelled as `Except String`, the mutable
client object is modelled by explicit state passing, and the outcome of every
remote HTTP call is drawn from an ambient `World`.  Remote requests issued by
an operation are recorded in an effect trace so that "no remote call was
made" is a provable statement.
-/

set_option maxHeartbeats 1000000
set_option linter.unusedVariables false

namespace PowerVS

/-- Python truthiness of an optional string (`None` and `""` are falsy). -/
def truthyOS : Option String → Bool
  | none => false
  | some s => s ≠ ""

/-- Python truthiness of a plain string. -/
def truthyS (s : String) : Bool := s ≠ ""

/-- Python truthiness of an optional numeric timestamp (`None` and `0` are falsy). -/
def truthyTime : Option Nat → Bool
  | none => false
  | some t => t ≠ 0

/-- Python f-string rendering of an optional string (`None` renders as "None"). -/
def pyo : Option String → String
  | none => "None"
  | some s => s

/-- Python `str.upper()` modelled character by character (structurally, so
that it evaluates on concrete inputs). -/
def pyUpper (s : String) : String := String.mk (s.data.map Char.toUpper)

/-- A JSON string field as read through `dict.get`: the key may be missing,
hold `null`, or hold a string. -/
inductive JStr where
  | missing
  | null
  | str (s : String)
deriving DecidableEq

/-- A JSON list field as read through `dict.get`: missing key, `null`, or a list. -/
inductive JList (α : Type) where
  | missing
  | null
  | lst (l : List α)
deriving DecidableEq

/-- The `health` field of a raw pvm-instance document: missing key, `null`,
or an object with a `status` field. -/
inductive JHealth where
  | missing
  | null
  | obj (status : JStr)
deriving DecidableEq

/-- The `pvmInstance` field of a network-interface document. -/
inductive JPvmRef where
  | missing
  | null
  | obj (pvmInstanceID : Option String)
deriving DecidableEq

/-- The `location` field of a raw workspace document. -/
inductive JLoc where
  | missing
  | null
  | obj (region : Option String) (url : JStr)
deriving DecidableEq

/-- Raw VM document from a `pvm-instances` listing (the fields the code reads). -/
structure Pvm where
  serverName : Option String
  pvmInstanceID : Option String
  osType : Option String
  sysType : Option String
  status : Option String
  health : JHealth
  crn : Option String
deriving DecidableEq

/-- Raw workspace document from the `/v1/workspaces` listing. -/
structure RawWs where
  id : Option String
  name : Option String
  location : JLoc
deriving DecidableEq

/-- Workspace record as built and cached by `get_all_workspaces`.  The `url`
field is `none` when the raw document carried an explicit `null` url. -/
structure Workspace where
  id : Option String
  name : Option String
  region : Option String
  url : Option String
deriving DecidableEq

/-- Entry of the VM → workspace routing cache (`self._vm_workspace`). -/
structure RouteEntry where
  workspace_id : String
  region : Option String
  url : Option String
deriving DecidableEq

/-- Mutable state of the `PowerVSClient` object. -/
structure ClientState where
  workspaces : Option (List Workspace)
  workspaces_time : Option Nat
  vm_workspace : List (String × RouteEntry)
  vm_workspace_time : Option Nat
deriving DecidableEq

/-- Static configuration of the client (loaded in `__init__`). -/
structure Config where
  api_key : String
  account_id : String
  base_url : String
  crn : String
  cloud_instance_id : String
deriving DecidableEq

/-- Outcome of the token-exchange POST together with its body handling:
transport failure, undecodable/keyless body, or an `access_token` value
(which may itself be JSON `null`). -/
inductive TokOut where
  | exc (msg : String)
  | badBody (msg : String)
  | tok (t : Option String)

/-- Outcome of a `pvm-instances` listing request: a raised exception (transport
or JSON decode), or a response with a status code and a body in which the
`pvmInstances` key is either absent (`none`) or a list of raw VM documents. -/
inductive VmListOut where
  | exc (msg : String)
  | resp (status : Nat) (payload : Option (List Pvm))

/-- Outcome of the `/v1/workspaces` request: a raised exception (transport or
decode), or a body whose `workspaces` field is a `JList` of raw documents. -/
inductive WsListOut where
  | exc (msg : String)
  | resp (raws : JList RawWs)

/-- Raw VM detail document (the fields `get_vm_health`/`get_network_health` read). -/
structure VmDoc where
  serverName : Option String
  status : Option String
  networks : JList (Option String)
deriving DecidableEq

/-- Raw network-interface document. -/
structure Iface where
  pvmInstance : JPvmRef
  status : Option String
  ipAddress : Option String
deriving DecidableEq

/-- Outcome of the VM detail request. -/
inductive VmDocOut where
  | exc (msg : String)
  | ok (doc : VmDoc)

/-- Outcome of a network-interfaces listing request. -/
inductive IfListOut where
  | exc (msg : String)
  | ok (ifs : JList Iface)

/-- Raw volume document from a `volumes` listing. -/
structure Volume where
  name : Option String
  state : JStr
deriving DecidableEq

/-- Outcome of a volumes listing request. -/
inductive VolsOut where
  | exc (msg : String)
  | ok (vols : JList Volume)

/-- The ambient behaviour of every remote endpoint, keyed by request URL
where several URLs can be hit.  Treated as a black box per the spec. -/
structure World where
  token : TokOut
  wsList : WsListOut
  vmList : String → VmListOut
  vmDetail : String → VmDocOut
  netIfs : String → IfListOut
  volumes : String → VolsOut

/-- A remote request issued by an operation. -/
inductive Eff where
  | tokenReq
  | getReq (url : String)
deriving DecidableEq

/-- Value returned by `get_iam_token`: the Python function returns either the
`access_token` value (a string or `None`) or a pair `("", exception)`. -/
inductive TokRet where
  | pyNone
  | str (s : String)
  | pair (msg : String)
deriving DecidableEq

/-- Python truthiness of a `get_iam_token` return value.  A pair (tuple) is
always truthy, even when it encodes a failure. -/
def truthyTok : TokRet → Bool
  | .pyNone => false
  | .str s => s ≠ ""
  | .pair _ => true

/-- Embeds `get_iam_token`: POST to the token endpoint; on `RequestException` or a
body without a usable `access_token`, returns the tuple `("", e)`. -/
def get_iam_token (w : World) : TokRet :=
  match w.token with
  | .exc m => .pair m
  | .badBody m => .pair m
  | .tok none => .pyNone
  | .tok (some s) => .str s

/-- Headers carried on an API call (the token value and optional CRN header). -/
structure Headers where
  token : TokRet
  crn : Option String
deriving DecidableEq

/-- Embeds `_get_headers`: builds headers unless the token is falsy.  Always issues
the token request. -/
def get_headers (c : Config) (w : World) (crn : Option String) :
    Option Headers × List Eff :=
  let t := get_iam_token w
  (if truthyTok t then some ⟨t, crn⟩ else none, [Eff.tokenReq])

/-- VM record as built by `_build_vm_detail`.  `health` is `none` when the raw
document carried an explicit `null` health value; otherwise it is the status
field of the (possibly defaulted) health object. -/
structure VmDetail where
  vmName : Option String
  vmID : Option String
  operatingSystem : Option String
  systemType : Option String
  vmStatus : Option String
  health : Option JStr
  crn : Option String
  workspaceInfo : Option (Option String × Option String)
deriving DecidableEq

/-- Embeds `_build_vm_detail`. -/
def build_vm_detail (pvm : Pvm) (wi : Option (Option String × Option String)) :
    VmDetail :=
  { vmName := pvm.serverName
    vmID := pvm.pvmInstanceID
    operatingSystem := pvm.osType
    systemType := pvm.sysType
    vmStatus := pvm.status
    health :=
      match pvm.health with
      | .missing => some (.str "UNKNOWN")
      | .null => none
      | .obj st => some st
    crn := pvm.crn
    workspaceInfo := wi }

/-- Builds the list of `Workspace` records from the raw listing body, as the
loop in `get_all_workspaces` does.  A `null` location raises (AttributeError),
which the surrounding `except` later turns into the fallback path. -/
def buildWsList (c : Config) : List RawWs → Except String (List Workspace)
  | [] => .ok []
  | raw :: rest =>
    match raw.location with
    | .null => .error "AttributeError: NoneType has no attribute get"
    | .missing =>
      match buildWsList c rest with
      | .error m => .error m
      | .ok tail =>
        .ok ({ id := raw.id, name := raw.name, region := none,
               url := some c.base_url } :: tail)
    | .obj region url =>
      match buildWsList c rest with
      | .error m => .error m
      | .ok tail =>
        .ok ({ id := raw.id, name := raw.name, region := region,
               url :=
                 match url with
                 | .missing => some c.base_url
                 | .null => none
                 | .str s => some s } :: tail)

/-- Handles the `workspaces` field of the listing body (`.get` default `[]`). -/
def buildWorkspaces (c : Config) : JList RawWs → Except String (List Workspace)
  | .missing => .ok []
  | .null => .error "TypeError: NoneType is not iterable"
  | .lst l => buildWsList c l

/-- The remote-refresh arm of `get_all_workspaces` (header building, request,
body processing, caching, stale fallback). -/
def refreshWorkspaces (c : Config) (st : ClientState) (w : World) (now : Nat) :
    List Workspace × ClientState × List Eff :=
  match get_headers c w none with
  | (none, e) => ([], st, e)
  | (some _, e) =>
    let url := c.base_url ++ "/v1/workspaces"
    let effs := e ++ [Eff.getReq url]
    let fallback : List Workspace × ClientState × List Eff :=
      match st.workspaces with
      | some ws => (ws, st, effs)
      | none => ([], st, effs)
    match w.wsList with
    | .exc _ => fallback
    | .resp raws =>
      match buildWorkspaces c raws with
      | .error _ => fallback
      | .ok l =>
        (l, { st with workspaces := some l, workspaces_time := some now }, effs)

/-- Embeds `get_all_workspaces`: serve a valid cache, serve a timestamp-less cache,
otherwise refresh remotely with stale fallback. -/
def get_all_workspaces (c : Config) (st : ClientState) (w : World) (now : Nat) :
    List Workspace × ClientState × List Eff :=
  match st.workspaces with
  | some ws =>
    if truthyTime st.workspaces_time then
      if now - st.workspaces_time.getD 0 ≤ 1800 then (ws, st, [])
      else refreshWorkspaces c st w now
    else (ws, st, [])
  | none => refreshWorkspaces c st w now

/-- The fixed-key health counters initialised in `fetch_vms_from_all_workspaces`. -/
structure HealthSummary where
  OK : Nat
  CRITICAL : Nat
  WARNING : Nat
  ATTENTION : Nat
deriving DecidableEq

/-- The fixed-key power-status counters. -/
structure StatusSummary where
  ACTIVE : Nat
  ERROR : Nat
  SHUTOFF : Nat
deriving DecidableEq

/-- Bump the health counter when the value is one of the fixed keys
(`if health_status in health_summary`). -/
def bumpHealth (h : HealthSummary) (s : String) : HealthSummary :=
  if s = "OK" then { h with OK := h.OK + 1 }
  else if s = "CRITICAL" then { h with CRITICAL := h.CRITICAL + 1 }
  else if s = "WARNING" then { h with WARNING := h.WARNING + 1 }
  else if s = "ATTENTION" then { h with ATTENTION := h.ATTENTION + 1 }
  else h

/-- Bump the status counter when the value is one of the fixed keys. -/
def bumpStatus (h : StatusSummary) (s : String) : StatusSummary :=
  if s = "ACTIVE" then { h with ACTIVE := h.ACTIVE + 1 }
  else if s = "ERROR" then { h with ERROR := h.ERROR + 1 }
  else if s = "SHUTOFF" then { h with SHUTOFF := h.SHUTOFF + 1 }
  else h

/-- Embeds `vm_detail.get("health", {}).get("status", "UNKNOWN").upper()`: raises
when the stored health value is `None`, or when its status field is `null`. -/
def healthStatusUpper (v : VmDetail) : Except String String :=
  match v.health with
  | none => .error "AttributeError: NoneType has no attribute get"
  | some st =>
    match st with
    | .missing => .ok "UNKNOWN"
    | .null => .error "AttributeError: NoneType has no attribute upper"
    | .str s => .ok (pyUpper s)

/-- Embeds `vm_detail.get("vmStatus", "UNKNOWN").upper()`: the key is always present,
so a missing/null raw status raises on `.upper()`. -/
def vmStatusUpper (v : VmDetail) : Except String String :=
  match v.vmStatus with
  | none => .error "AttributeError: NoneType has no attribute upper"
  | some s => .ok (pyUpper s)

/-- Python-dict insertion into the routing association list: an existing key
is overwritten in place, a new key is appended. -/
def dinsert : List (String × RouteEntry) → String → RouteEntry →
    List (String × RouteEntry)
  | [], k, v => [(k, v)]
  | (k', v') :: rest, k, v =>
    if k' = k then (k, v) :: rest else (k', v') :: dinsert rest k v

/-- Python-dict lookup in the routing association list. -/
def dlookup : List (String × RouteEntry) → String → Option RouteEntry
  | [], _ => none
  | (k', v') :: rest, k => if k' = k then some v' else dlookup rest k

/-- Accumulator of the fan-out loop: VM records, rebuilt routing map, and the
two summary counter sets. -/
structure Acc where
  vms : List VmDetail
  routing : List (String × RouteEntry)
  hs : HealthSummary
  ss : StatusSummary
deriving DecidableEq

/-- The empty accumulator (`vm_list = []`, `self._vm_workspace = {}`,
zero-initialised counters). -/
def accInit : Acc := ⟨[], [], ⟨0, 0, 0, 0⟩, ⟨0, 0, 0⟩⟩

/-- Processing of one raw VM inside the fan-out loop: build the record,
append it, cache its routing entry when the id is truthy, and bump the
summary counters. -/
def stepPvm (wid : String) (wregion wurl wname : Option String)
    (acc : Acc) (pvm : Pvm) : Except String Acc :=
  let v := build_vm_detail pvm (some (wname, wregion))
  let routing' :=
    match v.vmID with
    | some vid =>
      if vid = "" then acc.routing
      else dinsert acc.routing vid ⟨wid, wregion, wurl⟩
    | none => acc.routing
  match healthStatusUpper v with
  | .error m => .error m
  | .ok hstat =>
    match vmStatusUpper v with
    | .error m => .error m
    | .ok vstat =>
      .ok { vms := acc.vms ++ [v], routing := routing',
            hs := bumpHealth acc.hs hstat, ss := bumpStatus acc.ss vstat }

/-- Processes all raw VMs of one workspace in order. -/
def runPvms (wid : String) (wregion wurl wname : Option String) :
    Acc → List Pvm → Except String Acc
  | acc, [] => .ok acc
  | acc, p :: ps =>
    match stepPvm wid wregion wurl wname acc p with
    | .error m => .error m
    | .ok acc1 => runPvms wid wregion wurl wname acc1 ps

/-- Result of `_fetch_vms_from_workspace`: an error string, or the response
body's optional `pvmInstances` payload. -/
inductive FetchRes where
  | err (msg : String)
  | ok (payload : Option (List Pvm))
deriving DecidableEq

/-- The per-workspace CRN synthesised in the fan-out and in
`_get_workspace_for_vm`. -/
def mkWsCrn (c : Config) (region : Option String) (wid : String) : String :=
  "crn:v1:staging:public:power-iaas:" ++ pyo region ++ ":a/" ++
    c.account_id ++ ":" ++ wid ++ "::"

/-- URL of a workspace's `pvm-instances` listing. -/
def vmListUrl (wurl : Option String) (wid : String) : String :=
  pyo wurl ++ "/pcloud/v1/cloud-instances/" ++ wid ++ "/pvm-instances"

/-- Embeds `_fetch_vms_from_workspace`: build headers, issue the listing request,
map transport errors and non-200 statuses to error strings. -/
def fetchVmsFromWorkspace (c : Config) (w : World) (wid : String)
    (crn : String) (wurl : Option String) : FetchRes × List Eff :=
  match get_headers c w (some crn) with
  | (none, e) => (.err "Failed to get headers", e)
  | (some _, e) =>
    let url := vmListUrl wurl wid
    match w.vmList url with
    | .exc m => (.err m, e ++ [Eff.getReq url])
    | .resp status payload =>
      if status = 200 then (.ok payload, e ++ [Eff.getReq url])
      else (.err ("HTTP " ++ toString status), e ++ [Eff.getReq url])

/-- One iteration of the fan-out loop over a workspace: skip falsy ids,
skip fetch errors, skip payloads without `pvmInstances`, process VMs
otherwise.  A fetch "error" that is the empty string is falsy in Python, so
the code falls through to the `in` test on `None` and raises. -/
def stepWorkspace (c : Config) (w : World) (acc : Acc) (wk : Workspace) :
    Except String Acc :=
  match wk.id with
  | none => .ok acc
  | some wid =>
    if wid = "" then .ok acc
    else
      match (fetchVmsFromWorkspace c w wid (mkWsCrn c wk.region wid) wk.url).1 with
      | .err msg =>
        if msg = "" then .error "TypeError: argument of type NoneType is not iterable"
        else .ok acc
      | .ok none => .ok acc
      | .ok (some pvms) => runPvms wid wk.region wk.url wk.name acc pvms

/-- The whole fan-out loop. -/
def runWorkspaces (c : Config) (w : World) : Acc → List Workspace →
    Except String Acc
  | acc, [] => .ok acc
  | acc, wk :: rest =>
    match stepWorkspace c w acc wk with
    | .error m => .error m
    | .ok acc1 => runWorkspaces c w acc1 rest

/-- Whether the fan-out loop actually processes a workspace: truthy id,
usable headers, a 200 response carrying a `pvmInstances` payload. -/
def wsSucceeds (c : Config) (w : World) (wk : Workspace) : Bool :=
  match wk.id with
  | none => false
  | some wid =>
    if wid = "" then false
    else
      match (fetchVmsFromWorkspace c w wid (mkWsCrn c wk.region wid) wk.url).1 with
      | .ok (some _) => true
      | _ => false

/-- Remote requests issued while visiting one workspace (independent of the
accumulated data). -/
def wsEffs (c : Config) (w : World) (wk : Workspace) : List Eff :=
  match wk.id with
  | none => []
  | some wid =>
    if wid = "" then []
    else (fetchVmsFromWorkspace c w wid (mkWsCrn c wk.region wid) wk.url).2

/-- Remote requests issued by the whole fan-out loop. -/
def fanEffs (c : Config) (w : World) : List Workspace → List Eff
  | [] => []
  | wk :: rest => wsEffs c w wk ++ fanEffs c w rest

/-- The aggregated inventory returned by the account-wide fan-out. -/
structure InvResult where
  total_vms : Nat
  total_workspaces : Nat
  health_summary : HealthSummary
  status_summary : StatusSummary
  vms : List VmDetail
deriving DecidableEq

/-- Return value of `fetch_vms_from_all_workspaces`: an error dictionary or
the aggregated inventory. -/
inductive FanOut where
  | error (msg : String)
  | result (r : InvResult)
deriving DecidableEq

/-- Embeds `fetch_vms_from_all_workspaces`: obtain the workspace set, bail out on an
empty set, clear and rebuild the routing map while aggregating, stamp the
routing timestamp.  An uncaught mid-loop exception propagates (`Except.error`);
state mutations preceding such a crash are not modelled, as no property here
inspects post-crash state. -/
def fetch_vms_from_all_workspaces (c : Config) (st : ClientState) (w : World)
    (now : Nat) : Except String (FanOut × ClientState × List Eff) :=
  match get_all_workspaces c st w now with
  | (ws, st1, e1) =>
    match ws with
    | [] => .ok (.error "No workspaces found", st1, e1)
    | _ :: _ =>
      match runWorkspaces c w accInit ws with
      | .error m => .error m
      | .ok a =>
        .ok (.result ⟨a.vms.length, ws.length, a.hs, a.ss, a.vms⟩,
             { st1 with vm_workspace := a.routing, vm_workspace_time := some now },
             e1 ++ fanEffs c w ws)

/-- The pure lookup part of `_get_workspace_for_vm`: consult the routing map,
fall back to the static CRN scope, else not-found. -/
def lookupRoute (c : Config) (st : ClientState) (vm_id : String) :
    Option (String × String × Option String) :=
  match dlookup st.vm_workspace vm_id with
  | some e =>
    some (e.workspace_id, mkWsCrn c e.region e.workspace_id, e.url)
  | none =>
    if truthyS c.crn && truthyS c.cloud_instance_id then
      some (c.cloud_instance_id, c.crn, some c.base_url)
    else none

/-- Whether `_get_workspace_for_vm` triggers a refreshing fan-out: only when
the routing timestamp is set (and nonzero) and older than the 300s TTL. -/
def vmCacheExpired (st : ClientState) (now : Nat) : Bool :=
  match st.vm_workspace_time with
  | none => false
  | some t => t ≠ 0 && 300 < now - t

/-- Embeds `_get_workspace_for_vm`. -/
def get_workspace_for_vm (c : Config) (st : ClientState) (w : World)
    (now : Nat) (vm_id : String) :
    Except String (Option (String × String × Option String) × ClientState × List Eff) :=
  if vmCacheExpired st now then
    match fetch_vms_from_all_workspaces c st w now with
    | .error m => .error m
    | .ok (_, st1, e1) => .ok (lookupRoute c st1 vm_id, st1, e1)
  else .ok (lookupRoute c st vm_id, st, [])

/-- Return value of `get_network_health`: an error dictionary, or the
network-health status together with the down-interface addresses. -/
inductive NetOut where
  | error (msg : String)
  | result (status : String) (down : List (Option String))
deriving DecidableEq

/-- Classifies one network's interfaces, accumulating (active, down) address
lists.  A `null` `pvmInstance` field raises. -/
def classifyIfaces (vm_id : String) :
    List (Option String) × List (Option String) → List Iface →
    Except String (List (Option String) × List (Option String))
  | acc, [] => .ok acc
  | (act, down), i :: rest =>
    match i.pvmInstance with
    | .null => .error "AttributeError: NoneType has no attribute get"
    | .missing => classifyIfaces vm_id (act, down) rest
    | .obj pid =>
      if pid = some vm_id then
        if i.status = some "ACTIVE" then
          classifyIfaces vm_id (act ++ [i.ipAddress], down) rest
        else
          classifyIfaces vm_id (act, down ++ [i.ipAddress]) rest
      else classifyIfaces vm_id (act, down) rest

/-- Visits each network of the VM document, fetching and classifying its
interfaces.  The per-network request is not wrapped in any `try`, so a
transport failure propagates. -/
def runNetworks (c : Config) (w : World) (vm_id : String) :
    List (Option String) × List (Option String) × List Eff →
    List (Option String) →
    Except String (List (Option String) × List (Option String) × List Eff)
  | acc, [] => .ok acc
  | (act, down, effs), nid :: rest =>
    let url := c.base_url ++ "/v1/networks/" ++ pyo nid ++ "/network-interfaces"
    match w.netIfs url with
    | .exc m => .error m
    | .ok ifs =>
      match ifs with
      | .null => .error "TypeError: NoneType is not iterable"
      | .missing => runNetworks c w vm_id (act, down, effs ++ [Eff.getReq url]) rest
      | .lst l =>
        match classifyIfaces vm_id (act, down) l with
        | .error m => .error m
        | .ok (act', down') =>
          runNetworks c w vm_id (act', down', effs ++ [Eff.getReq url]) rest

/-- Embeds `get_network_health`: resolve the workspace, build headers, fetch the VM
document when not supplied, then inspect every network's interfaces.  The VM
detail and interface fetches are unprotected, so their failures propagate. -/
def get_network_health (c : Config) (st : ClientState) (w : World) (now : Nat)
    (vm_id : String) (vm_data : Option VmDoc) :
    Except String (NetOut × ClientState × List Eff) :=
  match get_workspace_for_vm c st w now vm_id with
  | .error m => .error m
  | .ok (route, st1, e1) =>
  match route with
  | none => .ok (.error "VM not found.", st1, e1)
  | some (wid, crn, wurl) =>
    if wid = "" then .ok (.error "VM not found.", st1, e1)
    else
      match get_headers c w (some crn) with
      | (none, e2) => .ok (.error "Failed to get headers", st1, e1 ++ e2)
      | (some _, e2) =>
        let finish (doc : VmDoc) (effs : List Eff) :
            Except String (NetOut × ClientState × List Eff) :=
          match doc.networks with
          | .null => .error "TypeError: NoneType is not iterable"
          | .missing => .ok (.result "OK" [], st1, effs)
          | .lst nets =>
            match runNetworks c w vm_id ([], [], effs) nets with
            | .error m => .error m
            | .ok (_, down, effs') =>
              .ok (.result (if down.isEmpty then "OK" else "CRITICAL") down,
                   st1, effs')
        match vm_data with
        | some doc => finish doc (e1 ++ e2)
        | none =>
          let vm_url := pyo wurl ++ "/pcloud/v1/cloud-instances/" ++ wid ++
            "/pvm-instances/" ++ vm_id
          match w.vmDetail vm_url with
          | .exc m => .error m
          | .ok doc => finish doc (e1 ++ e2 ++ [Eff.getReq vm_url])

/-- Return value of `get_storage_health`. -/
inductive StorOut where
  | error (msg : String)
  | result (status : String) (unhealthy : List (Option String × Option String))
deriving DecidableEq

/-- Embeds `volume.get('state', '')`: a missing key defaults to `""`, a `null` value
is carried through as `None`. -/
def volStateVal : JStr → Option String
  | .missing => some ""
  | .null => none
  | .str s => some s

/-- The allow-list of non-error volume states. -/
def healthyVolumeStates : List String :=
  ["in-use", "available", "creating", "attaching", "detaching"]

/-- Volumes whose state falls outside the allow-list (a `None` state is
outside it too). -/
def unhealthyVolumes (vols : List Volume) :
    List (Option String × Option String) :=
  vols.filterMap fun v =>
    match volStateVal v.state with
    | some s =>
      if healthyVolumeStates.contains s then none else some (v.name, some s)
    | none => some (v.name, none)

/-- Embeds `get_storage_health`: resolve the workspace, build headers, fetch the
volume listing (unprotected — a transport failure propagates), and classify
volume states. -/
def get_storage_health (c : Config) (st : ClientState) (w : World) (now : Nat)
    (vm_id : String) : Except String (StorOut × ClientState × List Eff) :=
  match get_workspace_for_vm c st w now vm_id with
  | .error m => .error m
  | .ok (route, st1, e1) =>
  match route with
  | none => .ok (.error "VM not found.", st1, e1)
  | some (wid, crn, wurl) =>
    if wid = "" then .ok (.error "VM not found.", st1, e1)
    else
      match get_headers c w (some crn) with
      | (none, e2) => .ok (.error "Failed to get headers", st1, e1 ++ e2)
      | (some _, e2) =>
        let url := pyo wurl ++ "/pcloud/v1/cloud-instances/" ++ wid ++
          "/pvm-instances/" ++ vm_id ++ "/volumes"
        match w.volumes url with
        | .exc m => .error m
        | .ok vols =>
          match vols with
          | .null => .error "TypeError: NoneType is not iterable"
          | .missing =>
            .ok (.result "OK" [], st1, e1 ++ e2 ++ [Eff.getReq url])
          | .lst l =>
            let uv := unhealthyVolumes l
            .ok (.result (if uv.isEmpty then "OK" else "CRITICAL") uv,
                 st1, e1 ++ e2 ++ [Eff.getReq url])

/-- The non-error record returned by `get_vm_health`. -/
structure VmHealthRec where
  vmName : Option String
  vmID : String
  overall_health : String
  vm_status : Option String
  network_health : String
  storage_health : String
  network_issues : List (Option String)
  storage_issues : List (Option String × Option String)
deriving DecidableEq

/-- Return value of `get_vm_health`. -/
inductive VmHealthOut where
  | error (msg : String)
  | result (r : VmHealthRec)
deriving DecidableEq

/-- The two-input worst-wins composition at line 526 of the source. -/
def composeOverall (ns ss : String) : String :=
  if ns = "CRITICAL" || ss = "CRITICAL" then "CRITICAL" else "OK"

/-- Embeds `get_vm_health`: resolve and authenticate, fetch the VM document, obtain
both sub-verdicts, and compose.  Everything after the header step is inside a
`try` whose `except` returns an error dictionary, including the `KeyError`
raised when a sub-call returned an error dictionary instead of a verdict.
State and effect changes made inside a caught exception are not threaded; no
property here inspects them. -/
def get_vm_health (c : Config) (st : ClientState) (w : World) (now : Nat)
    (vm_id : String) : Except String (VmHealthOut × ClientState × List Eff) :=
  match get_workspace_for_vm c st w now vm_id with
  | .error m => .error m
  | .ok (route, st1, e1) =>
  match route with
  | none => .ok (.error "VM not found.", st1, e1)
  | some (wid, crn, wurl) =>
    if wid = "" then .ok (.error "VM not found.", st1, e1)
    else
      match get_headers c w (some crn) with
      | (none, e2) => .ok (.error "Failed to get headers", st1, e1 ++ e2)
      | (some _, e2) =>
        let vm_url := pyo wurl ++ "/pcloud/v1/cloud-instances/" ++ wid ++
          "/pvm-instances/" ++ vm_id
        let effs := e1 ++ e2 ++ [Eff.getReq vm_url]
        let failMsg := fun (m : String) =>
          "Failed to get health for VM " ++ vm_id ++ ": " ++ m
        match w.vmDetail vm_url with
        | .exc m => .ok (.error (failMsg m), st1, effs)
        | .ok doc =>
          match get_network_health c st1 w now vm_id (some doc) with
          | .error m => .ok (.error (failMsg m), st1, effs)
          | .ok (nres, st2, e3) =>
            match get_storage_health c st2 w now vm_id with
            | .error m => .ok (.error (failMsg m), st2, effs ++ e3)
            | .ok (sres, st3, e4) =>
              match nres, sres with
              | .result ns nd, .result ss sv =>
                .ok (.result
                  { vmName := doc.serverName, vmID := vm_id,
                    overall_health := composeOverall ns ss,
                    vm_status := doc.status,
                    network_health := ns, storage_health := ss,
                    network_issues := nd, storage_issues := sv },
                  st3, effs ++ e3 ++ e4)
              | _, _ =>
                .ok (.error (failMsg "KeyError"), st3, effs ++ e3 ++ e4)

/-- Return value of `fetch_vms_by_health_status`. -/
inductive FilterOut where
  | error (msg : String)
  | result (total_vms : Nat) (vms : List VmDetail)
deriving DecidableEq

/-- Health value used by the client-side filter: a non-dict (that is, `null`)
health field defaults to UNKNOWN; an object defaults a missing status to
UNKNOWN; a `null` status raises on `.upper()`. -/
def filterHealthVal (v : VmDetail) : Except String String :=
  match v.health with
  | none => .ok "UNKNOWN"
  | some st =>
    match st with
    | .missing => .ok "UNKNOWN"
    | .null => .error "AttributeError: NoneType has no attribute upper"
    | .str s => .ok s

/-- The case-insensitive client-side filter loop. -/
def filterVms (target : String) : List VmDetail → Except String (List VmDetail)
  | [] => .ok []
  | v :: rest =>
    match filterHealthVal v with
    | .error m => .error m
    | .ok hv =>
      match filterVms target rest with
      | .error m => .error m
      | .ok tail =>
        if pyUpper hv = pyUpper target then .ok (v :: tail) else .ok tail

/-- Embeds `fetch_vms_by_health_status`: in single-workspace mode one direct listing
query with a bare `except` that degrades to an empty list; in account-wide
mode the full fan-out (whose uncaught exceptions propagate); then the
client-side filter. -/
def fetch_vms_by_health_status (c : Config) (st : ClientState) (w : World)
    (now : Nat) (health_status : String) :
    Except String (FilterOut × ClientState × List Eff) :=
  if truthyS c.crn && truthyS c.cloud_instance_id then
    match get_headers c w (some c.crn) with
    | (none, e) => .ok (.error "Failed to get headers", st, e)
    | (some _, e) =>
      let url := c.base_url ++ "/pcloud/v1/cloud-instances/" ++
        c.cloud_instance_id ++ "/pvm-instances"
      let effs := e ++ [Eff.getReq url]
      let all_vms : List VmDetail :=
        match w.vmList url with
        | .exc _ => []
        | .resp _ payload =>
          match payload with
          | none => []
          | some pvms => pvms.map (fun p => build_vm_detail p none)
      match filterVms health_status all_vms with
      | .error m => .error m
      | .ok fvms => .ok (.result fvms.length fvms, st, effs)
  else
    match fetch_vms_from_all_workspaces c st w now with
    | .error m => .error m
    | .ok (res, st1, e1) =>
      let all_vms :=
        match res with
        | .result r => r.vms
        | .error _ => []
      match filterVms health_status all_vms with
      | .error m => .error m
      | .ok fvms => .ok (.result fvms.length fvms, st1, e1)

/-- Embeds `get_critical_vms`: delegates to the health filter with "CRITICAL". -/
def get_critical_vms (c : Config) (st : ClientState) (w : World) (now : Nat) :
    Except String (FilterOut × ClientState × List Eff) :=
  fetch_vms_by_health_status c st w now "CRITICAL"

/-! Concrete fixtures used by closed theorems and witnesses. -/

/-- Account-wide configuration (no static CRN). -/
def cfg0 : Config := ⟨"key", "acct", "https://base", "", ""⟩

/-- A cached workspace record. -/
def ws1 : Workspace := ⟨some "ws-1", some "WS One", some "dal10", some "https://base"⟩

/-- A raw workspace listing document that builds exactly `ws1`. -/
def raw1 : RawWs := ⟨some "ws-1", some "WS One", .obj (some "dal10") (.str "https://base")⟩

/-- A routing entry for VM "vm-1" in workspace "ws-1". -/
def entry1 : RouteEntry := ⟨"ws-1", some "dal10", some "https://base"⟩

/-- A state with both caches freshly populated (timestamps 100). -/
def st1 : ClientState := ⟨some [ws1], some 100, [("vm-1", entry1)], some 100⟩

/-- The pristine state right after `__init__`. -/
def stEmpty : ClientState := ⟨none, none, [], none⟩

/-- A state whose workspace cache is populated but expired at `now = 2000`. -/
def stStale : ClientState := ⟨some [ws1], some 1, [], none⟩

/-- A world where the token exchange works but every data endpoint fails. -/
def wDead : World :=
  ⟨.tok (some "T"), .exc "workspace listing down",
   fun _ => .exc "listing down", fun _ => .exc "detail down",
   fun _ => .exc "interfaces down", fun _ => .exc "volumes down"⟩

/-- A world whose token exchange returns a null `access_token`. -/
def wNullTok : World :=
  ⟨.tok none, .exc "workspace listing down",
   fun _ => .exc "listing down", fun _ => .exc "detail down",
   fun _ => .exc "interfaces down", fun _ => .exc "volumes down"⟩

/-- A world where the workspace listing succeeds with `raw1`. -/
def wFresh : World :=
  ⟨.tok (some "T"), .resp (.lst [raw1]),
   fun _ => .exc "listing down", fun _ => .exc "detail down",
   fun _ => .exc "interfaces down", fun _ => .exc "volumes down"⟩

/-! Shared lemmas about the workspace directory cache. -/

/-- A valid (or timestamp-less) populated cache is served without any remote
call and without state change. -/
lemma get_all_workspaces_fresh (c : Config) (st : ClientState) (w : World)
    (now t : Nat) (ws : List Workspace)
    (hws : st.workspaces = some ws) (ht : st.workspaces_time = some t)
    (hfr : now - t ≤ 1800) :
    get_all_workspaces c st w now = (ws, st, []) := by
  unfold get_all_workspaces
  rw [hws, ht]
  by_cases h0 : t = 0
  · subst h0
    simp [truthyTime]
  · simp [truthyTime, h0, hfr]

/-- A populated cache with a nonzero timestamp older than the TTL goes to the
remote-refresh arm. -/
lemma get_all_workspaces_expired (c : Config) (st : ClientState) (w : World)
    (now t : Nat) (ws : List Workspace)
    (hws : st.workspaces = some ws) (ht : st.workspaces_time = some t)
    (ht0 : t ≠ 0) (hexp : 1800 < now - t) :
    get_all_workspaces c st w now = refreshWorkspaces c st w now := by
  unfold get_all_workspaces
  rw [hws, ht]
  have hn : ¬ now - t ≤ 1800 := by omega
  simp [truthyTime, ht0, hn]

/-- C10: for every client state, every time, and every upstream behaviour,
`get_critical_vms()` returns exactly the result of
`fetch_vms_by_health_status("CRITICAL")`: the two operations are
extensionally equal. -/
theorem critical_vms_equiv_C10 (c : Config) (st : ClientState) (w : World)
    (now : Nat) :
    get_critical_vms c st w now = fetch_vms_by_health_status c st w now "CRITICAL" :=
  rfl

/-- A world in which the VM detail and volumes fetches raise transport errors
while routing and authentication succeed. -/
def wC1 : World :=
  ⟨.tok (some "T"), .exc "workspace listing down",
   fun _ => .exc "listing down",
   fun _ => .exc "ConnectionError: vm detail unreachable",
   fun _ => .exc "interfaces down",
   fun _ => .exc "ReadTimeout: volumes request timed out"⟩

/-- C1: evaluation of the code at the failing input.  With workspace
resolution and header construction succeeding, a transport failure of the
remote fetch makes `get_network_health` and `get_storage_health` propagate
the exception (modelled as `Except.error`) to the façade instead of
returning a structured payload — while the very same failure occurring
inside `get_vm_health` is caught and converted to an error dictionary,
showing the guard the two operations lack. -/
theorem unguarded_fetch_raises_C1 :
    get_network_health cfg0 st1 wC1 150 "vm-1" none =
      .error "ConnectionError: vm detail unreachable" ∧
    get_storage_health cfg0 st1 wC1 150 "vm-1" =
      .error "ReadTimeout: volumes request timed out" ∧
    get_vm_health cfg0 st1 wC1 150 "vm-1" =
      .ok (.error "Failed to get health for VM vm-1: ConnectionError: vm detail unreachable",
           st1,
           [Eff.tokenReq,
            Eff.getReq "https://base/pcloud/v1/cloud-instances/ws-1/pvm-instances/vm-1"]) :=
  ⟨rfl, rfl, rfl⟩

/-- A world whose token exchange raises a transport error, with the volumes
endpoint reachable. -/
def wC2 : World :=
  ⟨.exc "ConnectionError: token endpoint unreachable", .exc "workspace listing down",
   fun _ => .exc "listing down", fun _ => .exc "detail down",
   fun _ => .exc "interfaces down", fun _ => .ok (.lst [])⟩

/-- C2: evaluation of the code at the failing input.  When the token exchange
raises, `get_iam_token` returns the tuple `("", e)`, which is truthy, so
`_get_headers` does NOT yield the empty-headers signal; the calling
operation (`get_storage_health` here) does not return the
"Failed to get headers" payload and proceeds to issue the remote request. -/
theorem empty_headers_signal_C2 :
    get_iam_token wC2 = .pair "ConnectionError: token endpoint unreachable" ∧
    truthyTok (get_iam_token wC2) = true ∧
    (get_headers cfg0 wC2 none).1 ≠ none ∧
    get_storage_health cfg0 st1 wC2 150 "vm-1" =
      .ok (.result "OK" [], st1,
           [Eff.tokenReq,
            Eff.getReq "https://base/pcloud/v1/cloud-instances/ws-1/pvm-instances/vm-1/volumes"]) :=
  ⟨rfl, rfl, by decide, rfl⟩

/-- C8: two consecutive `get_all_workspaces` calls, both within the TTL
window of a populated cache, return identical snapshots, leave the state
unchanged, and issue no remote request (empty effect trace). -/
theorem cache_idempotence_C8 (c : Config) (st : ClientState) (w : World)
    (now1 now2 t : Nat) (ws : List Workspace)
    (hws : st.workspaces = some ws) (ht : st.workspaces_time = some t)
    (h1 : now1 - t ≤ 1800) (h2 : now2 - t ≤ 1800) :
    get_all_workspaces c st w now1 = (ws, st, []) ∧
    get_all_workspaces c (get_all_workspaces c st w now1).2.1 w now2 = (ws, st, []) := by
  have first := get_all_workspaces_fresh c st w now1 t ws hws ht h1
  refine ⟨first, ?_⟩
  rw [first]
  exact get_all_workspaces_fresh c st w now2 t ws hws ht h2

/-- C8 witness at a concrete populated cache. -/
theorem cache_idempotence_C8_witness :
    get_all_workspaces cfg0 st1 wDead 200 = ([ws1], st1, []) ∧
    get_all_workspaces cfg0 (get_all_workspaces cfg0 st1 wDead 200).2.1 wDead 300 =
      ([ws1], st1, []) :=
  cache_idempotence_C8 cfg0 st1 wDead 200 300 100 [ws1] rfl rfl (by decide) (by decide)

/-- C4 counterexample: with a populated but expired workspace cache, a
refresh that fails at the header-building step (the token endpoint returned
a null access token) makes `get_all_workspaces` return the EMPTY list, not
the previously cached list. -/
theorem stale_fallback_C4_counterexample :
    get_all_workspaces cfg0 stStale wNullTok 2000 = ([], stStale, [Eff.tokenReq]) ∧
    stStale.workspaces = some [ws1] ∧ ([] : List Workspace) ≠ [ws1] :=
  ⟨rfl, rfl, by decide⟩

/-- C4 (amended): with a populated cache whose nonzero timestamp is expired:
a falsy token makes the operation return the empty list despite the cache;
a transport failure or a body-processing failure of the refresh serves the
stale cached list unchanged; a successful refresh replaces both the list and
the timestamp and returns the fresh list. -/
theorem stale_fallback_C4 (c : Config) (st : ClientState) (w : World)
    (now t : Nat) (ws : List Workspace)
    (hws : st.workspaces = some ws) (ht : st.workspaces_time = some t)
    (ht0 : t ≠ 0) (hexp : 1800 < now - t) :
    (truthyTok (get_iam_token w) = false →
      get_all_workspaces c st w now = ([], st, [Eff.tokenReq])) ∧
    (∀ m, truthyTok (get_iam_token w) = true → w.wsList = .exc m →
      get_all_workspaces c st w now =
        (ws, st, [Eff.tokenReq, Eff.getReq (c.base_url ++ "/v1/workspaces")])) ∧
    (∀ raws m, truthyTok (get_iam_token w) = true → w.wsList = .resp raws →
      buildWorkspaces c raws = .error m →
      get_all_workspaces c st w now =
        (ws, st, [Eff.tokenReq, Eff.getReq (c.base_url ++ "/v1/workspaces")])) ∧
    (∀ raws l, truthyTok (get_iam_token w) = true → w.wsList = .resp raws →
      buildWorkspaces c raws = .ok l →
      get_all_workspaces c st w now =
        (l, { st with workspaces := some l, workspaces_time := some now },
         [Eff.tokenReq, Eff.getReq (c.base_url ++ "/v1/workspaces")])) := by
  rw [get_all_workspaces_expired c st w now t ws hws ht ht0 hexp]
  refine ⟨?_, ?_, ?_, ?_⟩
  · intro htok
    simp [refreshWorkspaces, get_headers, htok]
  · intro m htok hwl
    simp [refreshWorkspaces, get_headers, htok, hwl, hws]
  · intro raws m htok hwl hbw
    simp [refreshWorkspaces, get_headers, htok, hwl, hbw, hws]
  · intro raws l htok hwl hbw
    simp [refreshWorkspaces, get_headers, htok, hwl, hbw]

/-- C4 witness: the three refresh outcomes at concrete inputs. -/
theorem stale_fallback_C4_witness :
    get_all_workspaces cfg0 stStale wNullTok 2000 = ([], stStale, [Eff.tokenReq]) ∧
    get_all_workspaces cfg0 stStale wDead 2000 =
      ([ws1], stStale, [Eff.tokenReq, Eff.getReq "https://base/v1/workspaces"]) ∧
    get_all_workspaces cfg0 stStale wFresh 2000 =
      ([ws1], { stStale with workspaces := some [ws1], workspaces_time := some 2000 },
       [Eff.tokenReq, Eff.getReq "https://base/v1/workspaces"]) :=
  ⟨(stale_fallback_C4 cfg0 stStale wNullTok 2000 1 [ws1] rfl rfl (by decide) (by decide)).1 rfl,
   (stale_fallback_C4 cfg0 stStale wDead 2000 1 [ws1] rfl rfl (by decide) (by decide)).2.1
     "workspace listing down" rfl rfl,
   (stale_fallback_C4 cfg0 stStale wFresh 2000 1 [ws1] rfl rfl (by decide) (by decide)).2.2.2
     (.lst [raw1]) [ws1] rfl rfl rfl⟩

/-- A raw VM document in good health. -/
def pvm9 : Pvm :=
  ⟨some "vm-nine", some "vm-9", some "aix", some "s922", some "ACTIVE",
   .obj (.str "OK"), some "crn-9"⟩

/-- A world where the workspace listing and the VM listing both succeed,
so that an account-wide fan-out discovers VM "vm-9". -/
def wC5 : World :=
  ⟨.tok (some "T"), .resp (.lst [raw1]),
   fun _ => .resp 200 (some [pvm9]), fun _ => .exc "detail down",
   fun _ => .exc "interfaces down", fun _ => .exc "volumes down"⟩

/-- C5 counterexample: on a pristine state (routing cache never populated,
`_vm_workspace_time = None`), `_get_workspace_for_vm` triggers NO inventory
fan-out — it issues no remote request at all, leaves the state untouched and
returns not-found — even though the fan-out the claim requires would have
produced a routing entry for the requested VM. -/
theorem routing_refresh_C5_counterexample :
    get_workspace_for_vm cfg0 stEmpty wC5 1000 "vm-9" = .ok (none, stEmpty, []) ∧
    (∃ r st' e, fetch_vms_from_all_workspaces cfg0 stEmpty wC5 1000 = .ok (r, st', e) ∧
      dlookup st'.vm_workspace "vm-9" = some entry1 ∧ e ≠ []) :=
  ⟨rfl, ⟨_, _, _, rfl, rfl, by decide⟩⟩

/-- C5 (amended): the refreshing fan-out runs before the map is consulted
only when the routing timestamp is set (nonzero) and older than its 300s
TTL; when the cache has never been populated, no fan-out occurs and the
lookup proceeds directly on the existing (empty) map. -/
theorem routing_refresh_C5 (c : Config) (st : ClientState) (w : World)
    (now : Nat) (vm_id : String) :
    (st.vm_workspace_time = none →
      get_workspace_for_vm c st w now vm_id = .ok (lookupRoute c st vm_id, st, [])) ∧
    (∀ t r st1 e1, st.vm_workspace_time = some t → t ≠ 0 → 300 < now - t →
      fetch_vms_from_all_workspaces c st w now = .ok (r, st1, e1) →
      get_workspace_for_vm c st w now vm_id = .ok (lookupRoute c st1 vm_id, st1, e1)) := by
  constructor
  · intro hnone
    have hexp : vmCacheExpired st now = false := by simp [vmCacheExpired, hnone]
    simp [get_workspace_for_vm, hexp]
  · intro t r st1 e1 ht ht0 httl hok
    have hexp : vmCacheExpired st now = true := by
      simp [vmCacheExpired, ht, ht0, httl]
    simp [get_workspace_for_vm, hexp, hok]

/-- A state whose routing cache is populated but expired at `now = 1000`,
with a valid workspace cache. -/
def stExp : ClientState := ⟨some [ws1], some 100, [("vm-1", entry1)], some 10⟩

/-- The state left behind by a fan-out over `wDead` from `stExp`. -/
def stExpRef : ClientState := ⟨some [ws1], some 100, [], some 1000⟩

/-- C5 witness: both arms at concrete inputs. -/
theorem routing_refresh_C5_witness :
    get_workspace_for_vm cfg0 stEmpty wDead 1000 "vm-1" =
      .ok (lookupRoute cfg0 stEmpty "vm-1", stEmpty, []) ∧
    get_workspace_for_vm cfg0 stExp wDead 1000 "vm-1" =
      .ok (lookupRoute cfg0 stExpRef "vm-1", stExpRef,
           [Eff.tokenReq,
            Eff.getReq "https://base/pcloud/v1/cloud-instances/ws-1/pvm-instances"]) :=
  ⟨(routing_refresh_C5 cfg0 stEmpty wDead 1000 "vm-1").1 rfl,
   (routing_refresh_C5 cfg0 stExp wDead 1000 "vm-1").2 10
     (.result ⟨0, 1, ⟨0, 0, 0, 0⟩, ⟨0, 0, 0⟩, []⟩) stExpRef
     [Eff.tokenReq, Eff.getReq "https://base/pcloud/v1/cloud-instances/ws-1/pvm-instances"]
     rfl (by decide) (by decide) rfl⟩

/-! Lemmas about the fan-out loop used for C3, C6 and C9. -/

/-- A workspace the fan-out does not process leaves the accumulator
untouched — or, when the fetch produced a falsy (empty-string) error, the
loop body raises. -/
lemma stepWorkspace_skip (c : Config) (w : World) (acc : Acc) (wk : Workspace)
    (hf : wsSucceeds c w wk = false) :
    stepWorkspace c w acc wk = .ok acc ∨
      ∃ m, stepWorkspace c w acc wk = .error m := by
  unfold wsSucceeds at hf
  unfold stepWorkspace
  cases hid : wk.id with
  | none => exact Or.inl rfl
  | some wid =>
    rw [hid] at hf
    dsimp only at hf ⊢
    by_cases hw : wid = ""
    · simp [hw]
    · rw [if_neg hw] at hf ⊢
      cases hfr : (fetchVmsFromWorkspace c w wid (mkWsCrn c wk.region wid) wk.url).1 with
      | err msg =>
        dsimp only
        by_cases hm : msg = ""
        · exact Or.inr ⟨_, by rw [if_pos hm]⟩
        · exact Or.inl (by rw [if_neg hm])
      | ok payload =>
        rw [hfr] at hf
        cases payload with
        | none => exact Or.inl rfl
        | some pv => simp at hf

/-- Restricting the fan-out loop to the workspaces it actually processes
does not change a successful outcome: skipped workspaces contribute
nothing. -/
lemma runWorkspaces_filter (c : Config) (w : World) :
    ∀ (ws : List Workspace) (acc a : Acc),
      runWorkspaces c w acc ws = .ok a →
      runWorkspaces c w acc (ws.filter fun wk => wsSucceeds c w wk) = .ok a := by
  intro ws
  induction ws with
  | nil => intro acc a h; simpa using h
  | cons wk rest ih =>
    intro acc a h
    rw [runWorkspaces] at h
    by_cases hs : wsSucceeds c w wk
    · rw [List.filter_cons_of_pos (by simpa using hs), runWorkspaces]
      cases hstep : stepWorkspace c w acc wk with
      | error m =>
        rw [hstep] at h
        dsimp only at h
        cases h
      | ok acc1 =>
        rw [hstep] at h
        dsimp only at h ⊢
        exact ih acc1 a h
    · rw [List.filter_cons_of_neg (by simpa using hs)]
      rcases stepWorkspace_skip c w acc wk (by simpa using hs) with hid | ⟨m, herr⟩
      · rw [hid] at h
        dsimp only at h
        exact ih acc a h
      · rw [herr] at h
        dsimp only at h
        cases h

/-- If no workspace is processed, a successful loop returns its input
accumulator. -/
lemma runWorkspaces_all_fail (c : Config) (w : World) (ws : List Workspace)
    (acc a : Acc) (hall : ∀ wk ∈ ws, wsSucceeds c w wk = false)
    (h : runWorkspaces c w acc ws = .ok a) : a = acc := by
  have hfil : ws.filter (fun wk => wsSucceeds c w wk) = [] := by
    rw [List.filter_eq_nil_iff]
    intro wk hwk
    simp [hall wk hwk]
  have hnil := runWorkspaces_filter c w ws acc a h
  rw [hfil, runWorkspaces] at hnil
  cases hnil
  rfl

/-- C6 counterexample: a fan-out in which the only workspace fetch fails
completes successfully but leaves the previously populated routing map
EMPTY (with a fresh timestamp): the cached value was discarded before the
refreshing calls succeeded. -/
theorem cache_preservation_C6_counterexample :
    st1.vm_workspace = [("vm-1", entry1)] ∧
    fetch_vms_from_all_workspaces cfg0 st1 wDead 150 =
      .ok (.result ⟨0, 1, ⟨0, 0, 0, 0⟩, ⟨0, 0, 0⟩, []⟩,
           ⟨some [ws1], some 100, [], some 150⟩,
           [Eff.tokenReq,
            Eff.getReq "https://base/pcloud/v1/cloud-instances/ws-1/pvm-instances"]) :=
  ⟨rfl, rfl⟩

/-- C6 (amended): the workspace directory cache does satisfy the invariant —
an expired-but-present value is served unchanged when the refreshing call
fails; but the VM routing map does not: it is rebuilt from scratch on every
fan-out run, so a run in which every per-workspace fetch fails leaves it
empty with a fresh timestamp. -/
theorem cache_preservation_C6 (c : Config) (st : ClientState) (w : World)
    (now t : Nat) (ws : List Workspace)
    (hws : st.workspaces = some ws) (ht : st.workspaces_time = some t) :
    (t ≠ 0 → 1800 < now - t → ∀ m,
      truthyTok (get_iam_token w) = true → w.wsList = .exc m →
      get_all_workspaces c st w now =
        (ws, st, [Eff.tokenReq, Eff.getReq (c.base_url ++ "/v1/workspaces")])) ∧
    (now - t ≤ 1800 → ws ≠ [] → (∀ wk ∈ ws, wsSucceeds c w wk = false) →
      ∀ res st' effs,
        fetch_vms_from_all_workspaces c st w now = .ok (res, st', effs) →
        st'.vm_workspace = [] ∧ st'.vm_workspace_time = some now ∧
        res = .result ⟨0, ws.length, ⟨0, 0, 0, 0⟩, ⟨0, 0, 0⟩, []⟩) := by
  constructor
  · intro ht0 hexp m htok hwl
    rw [get_all_workspaces_expired c st w now t ws hws ht ht0 hexp]
    simp [refreshWorkspaces, get_headers, htok, hwl, hws]
  · intro hfr hne hall res st' effs hok
    unfold fetch_vms_from_all_workspaces at hok
    rw [get_all_workspaces_fresh c st w now t ws hws ht hfr] at hok
    cases ws with
    | nil => exact absurd rfl hne
    | cons wk rest =>
      dsimp only at hok
      cases hrw : runWorkspaces c w accInit (wk :: rest) with
      | error m => rw [hrw] at hok; cases hok
      | ok a =>
        rw [hrw] at hok
        dsimp only at hok
        have ha : a = accInit := runWorkspaces_all_fail c w _ accInit a hall hrw
        subst ha
        injection hok with hok
        injection hok with h1 hok
        injection hok with h2 h3
        subst h2
        exact ⟨rfl, rfl, h1.symm⟩

/-- C6 witness: both arms at concrete inputs. -/
theorem cache_preservation_C6_witness :
    get_all_workspaces cfg0 stStale wDead 2000 =
      ([ws1], stStale, [Eff.tokenReq, Eff.getReq "https://base/v1/workspaces"]) ∧
    ((⟨some [ws1], some 100, [], some 150⟩ : ClientState).vm_workspace = [] ∧
     (⟨some [ws1], some 100, [], some 150⟩ : ClientState).vm_workspace_time = some 150 ∧
     (FanOut.result ⟨0, 1, ⟨0, 0, 0, 0⟩, ⟨0, 0, 0⟩, []⟩ : FanOut) =
       .result ⟨0, [ws1].length, ⟨0, 0, 0, 0⟩, ⟨0, 0, 0⟩, []⟩) :=
  ⟨(cache_preservation_C6 cfg0 stStale wDead 2000 1 [ws1] rfl rfl).1
     (by decide) (by decide) "workspace listing down" rfl rfl,
   (cache_preservation_C6 cfg0 st1 wDead 150 100 [ws1] rfl rfl).2
     (by decide) (by decide) (by decide)
     (.result ⟨0, 1, ⟨0, 0, 0, 0⟩, ⟨0, 0, 0⟩, []⟩)
     ⟨some [ws1], some 100, [], some 150⟩
     [Eff.tokenReq, Eff.getReq "https://base/pcloud/v1/cloud-instances/ws-1/pvm-instances"]
     rfl⟩

/-- C3: in account-wide mode, with a valid non-empty cached workspace set of
which an arbitrary subset fails (transport error, non-200 status, missing
`pvmInstances` payload, falsy id…), a completed fan-out yields a non-error
result whose VM list, summary counters and routing entries are exactly those
computed over the succeeding workspaces alone, while `total_workspaces`
counts all n workspaces; the workspace cache itself is untouched. -/
theorem partial_fanout_C3 (c : Config) (st : ClientState) (w : World)
    (now t : Nat) (ws : List Workspace) (res : FanOut) (st' : ClientState)
    (effs : List Eff)
    (hws : st.workspaces = some ws) (ht : st.workspaces_time = some t)
    (hfr : now - t ≤ 1800) (hne : ws ≠ [])
    (hok : fetch_vms_from_all_workspaces c st w now = .ok (res, st', effs)) :
    ∃ a : Acc,
      runWorkspaces c w accInit (ws.filter fun wk => wsSucceeds c w wk) = .ok a ∧
      res = .result ⟨a.vms.length, ws.length, a.hs, a.ss, a.vms⟩ ∧
      st'.vm_workspace = a.routing ∧
      st'.vm_workspace_time = some now ∧
      st'.workspaces = some ws ∧ st'.workspaces_time = some t := by
  unfold fetch_vms_from_all_workspaces at hok
  rw [get_all_workspaces_fresh c st w now t ws hws ht hfr] at hok
  cases ws with
  | nil => exact absurd rfl hne
  | cons wk rest =>
    dsimp only at hok
    cases hrw : runWorkspaces c w accInit (wk :: rest) with
    | error m => rw [hrw] at hok; cases hok
    | ok a =>
      rw [hrw] at hok
      dsimp only at hok
      refine ⟨a, runWorkspaces_filter c w _ accInit a hrw, ?_⟩
      injection hok with hok
      injection hok with h1 hok
      injection hok with h2 h3
      subst h2
      exact ⟨h1.symm, rfl, rfl, hws, ht⟩

/-- A second cached workspace whose endpoint is unreachable. -/
def wsB : Workspace := ⟨some "ws-2", some "WS Two", some "dal12", some "https://base2"⟩

/-- A state caching the two workspaces `ws1` and `wsB`, fresh at `now = 1000`. -/
def stW3 : ClientState := ⟨some [ws1, wsB], some 900, [], none⟩

/-- A world where `ws1`'s listing succeeds with one VM and `wsB`'s listing
raises a transport error. -/
def wW3 : World :=
  ⟨.tok (some "T"), .exc "workspace listing down",
   fun u =>
     if u = "https://base/pcloud/v1/cloud-instances/ws-1/pvm-instances" then
       .resp 200 (some [pvm9])
     else .exc "ConnectionError: ws-2 unreachable",
   fun _ => .exc "detail down", fun _ => .exc "interfaces down",
   fun _ => .exc "volumes down"⟩

/-- The VM record built from `pvm9` inside workspace `ws1`. -/
def v9 : VmDetail :=
  ⟨some "vm-nine", some "vm-9", some "aix", some "s922", some "ACTIVE",
   some (.str "OK"), some "crn-9", some (some "WS One", some "dal10")⟩

/-- C3 witness: three-minus-one fan-out at a concrete input — two cached
workspaces, one unreachable; the result counts both workspaces but derives
everything else from the reachable one. -/
theorem partial_fanout_C3_witness :
    ∃ a : Acc,
      runWorkspaces cfg0 wW3 accInit
        ([ws1, wsB].filter fun wk => wsSucceeds cfg0 wW3 wk) = .ok a ∧
      (FanOut.result ⟨1, 2, ⟨1, 0, 0, 0⟩, ⟨1, 0, 0⟩, [v9]⟩ : FanOut) =
        .result ⟨a.vms.length, [ws1, wsB].length, a.hs, a.ss, a.vms⟩ ∧
      (⟨some [ws1, wsB], some 900, [("vm-9", entry1)], some 1000⟩ : ClientState).vm_workspace =
        a.routing ∧
      (⟨some [ws1, wsB], some 900, [("vm-9", entry1)], some 1000⟩ : ClientState).vm_workspace_time =
        some 1000 ∧
      (⟨some [ws1, wsB], some 900, [("vm-9", entry1)], some 1000⟩ : ClientState).workspaces =
        some [ws1, wsB] ∧
      (⟨some [ws1, wsB], some 900, [("vm-9", entry1)], some 1000⟩ : ClientState).workspaces_time =
        some 900 :=
  partial_fanout_C3 cfg0 stW3 wW3 1000 900 [ws1, wsB]
    (.result ⟨1, 2, ⟨1, 0, 0, 0⟩, ⟨1, 0, 0⟩, [v9]⟩)
    ⟨some [ws1, wsB], some 900, [("vm-9", entry1)], some 1000⟩
    [Eff.tokenReq, Eff.getReq "https://base/pcloud/v1/cloud-instances/ws-1/pvm-instances",
     Eff.tokenReq, Eff.getReq "https://base2/pcloud/v1/cloud-instances/ws-2/pvm-instances"]
    rfl rfl (by decide) (by decide) rfl

/-! Lemmas for the health-summary bound (C9). -/

/-- Sum of the four fixed health counters. -/
def sumHealth (h : HealthSummary) : Nat :=
  h.OK + h.CRITICAL + h.WARNING + h.ATTENTION

/-- Each VM bumps the health counters by at most one. -/
lemma bumpHealth_le (h : HealthSummary) (s : String) :
    sumHealth (bumpHealth h s) ≤ sumHealth h + 1 := by
  unfold bumpHealth sumHealth
  repeat' split
  all_goals simp_arith

/-- One processed VM adds exactly one record and at most one counter tick. -/
lemma stepPvm_inv (wid : String) (r u n : Option String) (acc a : Acc) (p : Pvm)
    (h : stepPvm wid r u n acc p = .ok a) :
    a.vms.length = acc.vms.length + 1 ∧ sumHealth a.hs ≤ sumHealth acc.hs + 1 := by
  unfold stepPvm at h
  dsimp only at h
  split at h
  · cases h
  · split at h
    · cases h
    · injection h with h
      subst h
      exact ⟨by simp, bumpHealth_le acc.hs _⟩

/-- The per-workspace VM loop preserves the counter-versus-record relation. -/
lemma runPvms_inv (wid : String) (r u n : Option String) :
    ∀ (ps : List Pvm) (acc a : Acc),
      runPvms wid r u n acc ps = .ok a →
      sumHealth a.hs + acc.vms.length ≤ sumHealth acc.hs + a.vms.length := by
  intro ps
  induction ps with
  | nil =>
    intro acc a h
    rw [runPvms] at h
    injection h with h
    subst h
    omega
  | cons p ps ih =>
    intro acc a h
    rw [runPvms] at h
    cases hstep : stepPvm wid r u n acc p with
    | error m => rw [hstep] at h; dsimp only at h; cases h
    | ok acc1 =>
      rw [hstep] at h
      dsimp only at h
      obtain ⟨h1, h2⟩ := stepPvm_inv wid r u n acc acc1 p hstep
      have h3 := ih acc1 a h
      omega

/-- A fan-out loop iteration preserves the counter-versus-record relation. -/
lemma stepWorkspace_inv (c : Config) (w : World) (acc a : Acc) (wk : Workspace)
    (h : stepWorkspace c w acc wk = .ok a) :
    sumHealth a.hs + acc.vms.length ≤ sumHealth acc.hs + a.vms.length := by
  unfold stepWorkspace at h
  split at h
  · injection h with h; subst h; omega
  · split at h
    · injection h with h; subst h; omega
    · split at h
      · split at h
        · cases h
        · injection h with h; subst h; omega
      · injection h with h; subst h; omega
      · exact runPvms_inv _ _ _ _ _ _ _ h

/-- The whole fan-out loop preserves the counter-versus-record relation. -/
lemma runWorkspaces_inv (c : Config) (w : World) :
    ∀ (ws : List Workspace) (acc a : Acc),
      runWorkspaces c w acc ws = .ok a →
      sumHealth a.hs + acc.vms.length ≤ sumHealth acc.hs + a.vms.length := by
  intro ws
  induction ws with
  | nil =>
    intro acc a h
    rw [runWorkspaces] at h
    injection h with h
    subst h
    omega
  | cons wk rest ih =>
    intro acc a h
    rw [runWorkspaces] at h
    cases hstep : stepWorkspace c w acc wk with
    | error m => rw [hstep] at h; dsimp only at h; cases h
    | ok acc1 =>
      rw [hstep] at h
      dsimp only at h
      have h1 := stepWorkspace_inv c w acc acc1 wk hstep
      have h2 := ih acc1 a h
      omega

/-- C9: in every aggregated inventory the fan-out produces, the health
counters sum to at most `total_vms`: a VM with an unrecognized health value
is kept in `vms` and counted in `total_vms` but excluded from the
counters. -/
theorem health_summary_bound_C9 (c : Config) (st : ClientState) (w : World)
    (now : Nat) (r : InvResult) (st' : ClientState) (effs : List Eff)
    (hok : fetch_vms_from_all_workspaces c st w now = .ok (.result r, st', effs)) :
    sumHealth r.health_summary ≤ r.total_vms := by
  unfold fetch_vms_from_all_workspaces at hok
  rcases hga : get_all_workspaces c st w now with ⟨ws, st1, e1⟩
  rw [hga] at hok
  dsimp only at hok
  cases ws with
  | nil => simp at hok
  | cons wk rest =>
    dsimp only at hok
    cases hrw : runWorkspaces c w accInit (wk :: rest) with
    | error m => rw [hrw] at hok; cases hok
    | ok a =>
      rw [hrw] at hok
      dsimp only at hok
      injection hok with hok
      injection hok with h1 h2
      injection h1 with h1
      subst h1
      have hbound := runWorkspaces_inv c w (wk :: rest) accInit a hrw
      simp [accInit, sumHealth] at hbound
      exact hbound

/-- A raw VM document with an unrecognized health value. -/
def pvmWeird : Pvm :=
  ⟨some "vm-w", some "vm-w", some "ibmi", some "e980", some "ACTIVE",
   .obj (.str "DEGRADED"), some "crn-w"⟩

/-- The VM record built from `pvmWeird` inside workspace `ws1`. -/
def vW9 : VmDetail :=
  ⟨some "vm-w", some "vm-w", some "ibmi", some "e980", some "ACTIVE",
   some (.str "DEGRADED"), some "crn-w", some (some "WS One", some "dal10")⟩

/-- A state caching workspace `ws1` only, fresh at `now = 1000`. -/
def stW9 : ClientState := ⟨some [ws1], some 900, [], none⟩

/-- A world whose single workspace lists one healthy VM and one VM with an
unrecognized health value. -/
def wW9 : World :=
  ⟨.tok (some "T"), .exc "workspace listing down",
   fun _ => .resp 200 (some [pvm9, pvmWeird]), fun _ => .exc "detail down",
   fun _ => .exc "interfaces down", fun _ => .exc "volumes down"⟩

/-- C9 witness: two VMs, one with unrecognized health — the counters sum to
1 while `total_vms` is 2. -/
theorem health_summary_bound_C9_witness :
    sumHealth (⟨1, 0, 0, 0⟩ : HealthSummary) ≤ 2 :=
  health_summary_bound_C9 cfg0 stW9 wW9 1000
    ⟨2, 1, ⟨1, 0, 0, 0⟩, ⟨2, 0, 0⟩, [v9, vW9]⟩
    ⟨some [ws1], some 900, [("vm-9", entry1), ("vm-w", entry1)], some 1000⟩
    [Eff.tokenReq, Eff.getReq "https://base/pcloud/v1/cloud-instances/ws-1/pvm-instances"]
    rfl

/-- The worst-wins composition characterised. -/
lemma composeOverall_iff (ns ss : String) :
    (composeOverall ns ss = "CRITICAL" ↔ (ns = "CRITICAL" ∨ ss = "CRITICAL")) ∧
    (composeOverall ns ss = "CRITICAL" ∨ composeOverall ns ss = "OK") := by
  unfold composeOverall
  by_cases h1 : ns = "CRITICAL" <;> by_cases h2 : ss = "CRITICAL" <;> simp [h1, h2]

/-- C7: whenever `get_vm_health` returns a health record, its overall
verdict is the two-input worst-wins composition of the two sub-verdicts:
CRITICAL iff the network verdict or the storage verdict is CRITICAL, and OK
otherwise — never a WARNING or partial value. -/
theorem worst_wins_C7 (c : Config) (st : ClientState) (w : World) (now : Nat)
    (vm_id : String) (hr : VmHealthRec) (st' : ClientState) (effs : List Eff)
    (hok : get_vm_health c st w now vm_id = .ok (.result hr, st', effs)) :
    hr.overall_health = composeOverall hr.network_health hr.storage_health ∧
    (hr.overall_health = "CRITICAL" ↔
      (hr.network_health = "CRITICAL" ∨ hr.storage_health = "CRITICAL")) ∧
    (hr.overall_health = "CRITICAL" ∨ hr.overall_health = "OK") := by
  unfold get_vm_health at hok
  dsimp only at hok
  repeat' split at hok
  all_goals try cases hok
  all_goals exact ⟨rfl, (composeOverall_iff _ _).1, (composeOverall_iff _ _).2⟩

/-- The VM detail document served for the C7 witness. -/
def docH : VmDoc := ⟨some "vm-nine", some "ACTIVE", .lst []⟩

/-- A volume in an error state. -/
def volBad : Volume := ⟨some "vol-1", .str "error"⟩

/-- A world where the VM detail fetch succeeds, the network side is clean,
and the storage side has one unhealthy volume. -/
def wVolBad : World :=
  ⟨.tok (some "T"), .exc "workspace listing down",
   fun _ => .exc "listing down", fun _ => .ok docH,
   fun _ => .exc "interfaces down", fun _ => .ok (.lst [volBad])⟩

/-- The health record `get_vm_health` computes in `wVolBad`. -/
def hRecC : VmHealthRec :=
  ⟨some "vm-nine", "vm-1", "CRITICAL", some "ACTIVE", "OK", "CRITICAL", [],
   [(some "vol-1", some "error")]⟩

/-- C7 witness: network OK and storage CRITICAL compose to overall
CRITICAL. -/
theorem worst_wins_C7_witness :
    hRecC.overall_health = composeOverall hRecC.network_health hRecC.storage_health ∧
    (hRecC.overall_health = "CRITICAL" ↔
      (hRecC.network_health = "CRITICAL" ∨ hRecC.storage_health = "CRITICAL")) ∧
    (hRecC.overall_health = "CRITICAL" ∨ hRecC.overall_health = "OK") :=
  worst_wins_C7 cfg0 st1 wVolBad 150 "vm-1" hRecC _ _ rfl

end PowerVS
